import Mathlib

/-!
Shallow embedding of `src/e-gov-laws-mcp.py` (an MCP server exposing five
tools over the e-Gov laws HTTP API), and proofs about its tool-dispatch and
request-sanitization layer.

Modelling conventions:
* Python values appearing in argument bags, query parameters and result
  payloads are modelled by the JSON-like type `Value`; Python's `None` is
  `Value.null`.
* Python dictionaries are modelled as insertion-ordered association lists
  `List (String × Value)`; `dict.get` / `in` are first-match lookups.
* The aiohttp client session is modelled as an oracle
  `Transport : OutboundRequest → Except String HttpResponse`; a `.error`
  from the oracle stands for a raised network/timeout exception, and the
  response's `.json()` decoding outcome is the field `jsonResult`.
* A raised Python exception is an `Except.error msg` threaded to the
  dispatcher; `call_tool`'s `try/except` converts it to the
  `{"error": msg}` payload.  Runtime-generated exception texts (Python
  `TypeError` messages for bad keyword binding) are approximated by fixed
  strings; no claim depends on their exact wording.
* Each handler also records the list of outbound HTTP requests it issued,
  so that "no request is issued on the failure path" is expressible.
-/

/-- A JSON-like runtime value, as handled by the Python source.  `null` is
Python's `None`. -/
inductive Value where
  | null
  | str (s : String)
  | int (n : Int)
  | bool (b : Bool)
  | obj (fields : List (String × Value))
  | arr (elems : List Value)

/-- Python `is None` test (used by `clean_query`'s `v is not None`). -/
def Value.isNull : Value → Bool
  | .null => true
  | _ => false

/-- Python truthiness of a value (`bool(v)`): `None`, `""`, `0`, `False` and
empty containers are falsy. -/
def isTruthy : Value → Bool
  | .null => false
  | .str s => !(s == "")
  | .int n => !(n == 0)
  | .bool b => b
  | .obj fs => !fs.isEmpty
  | .arr xs => !xs.isEmpty

/-- Python `str(v)` / f-string interpolation, as used to splice an identifier
into a URL.  Faithful on the scalar cases; containers (never spliced by any
claim) get a JSON-like rendering. -/
def pyStr : Value → String
  | .null => "None"
  | .str s => s
  | .int n => toString n
  | .bool b => if b then "True" else "False"
  | .obj _ => "\x7b...\x7d"
  | .arr _ => "[...]"

/-- An argument bag: the `arguments` dict passed to `call_tool`. -/
def Bag : Type := List (String × Value)

/-- First-match key lookup in a Python dict modelled as an association
list (`d[k]` / `k in d`). -/
def bagFind (b : Bag) (k : String) : Option Value :=
  (List.find? (fun kv => kv.1 == k) b).map (fun kv => kv.2)

/-- Line 18 of the source: the fixed base origin of the remote API. -/
def BASE_URL : String := "https://elaws.e-gov.go.jp/api/2"

/-- Lines 21-25 of the source: per-tool allowed query parameter keys. -/
def ALLOWED_PARAMS : List (String × List String) :=
  [("list_laws",
    ["law_id", "law_num", "law_num_era", "law_num_type", "law_title",
     "law_title_kana", "amendment_date_from", "amendment_date_to",
     "amendment_law_id", "amendment_law_num", "amendment_law_title", "asof",
     "promulgation_date_from", "promulgation_date_to", "order"]),
   ("search_laws",
    ["law_num", "law_num_era", "law_num_type", "law_title",
     "law_title_kana", "asof", "promulgation_date_from",
     "promulgation_date_to", "order"]),
   ("get_law_revisions",
    ["law_title", "law_title_kana", "amendment_date_from",
     "amendment_date_to", "amendment_law_id", "amendment_law_num",
     "amendment_law_title", "amendment_promulgate_date_from",
     "amendment_promulgate_date_to", "remain_in_force", "repeal_date_from",
     "repeal_date_to"])]

/-- Python `ALLOWED_PARAMS.get(name, [])`. -/
def allowed_params_get (name : String) : List String :=
  ((List.find? (fun p => p.1 == name) ALLOWED_PARAMS).map (fun p => p.2)).getD []

/-- Lines 27-34 of the source, `resolve_law_identifier`: first-match-wins
precedence over `law_revision_id` (only when allowed), `law_id`, `law_num`.
Returns the stored value of the first present key (that value may itself be
`null` — the source checks key presence with `in`, not value usability). -/
def resolve_law_identifier (args : Bag) (allow_revision_id : Bool := true) :
    Option Value :=
  if allow_revision_id && (bagFind args "law_revision_id").isSome then
    bagFind args "law_revision_id"
  else if (bagFind args "law_id").isSome then
    bagFind args "law_id"
  else if (bagFind args "law_num").isSome then
    bagFind args "law_num"
  else
    none

/-- Lines 305-307 of the source, `clean_query`: whitelist filter.  The
argument `query` is the raw Python value bound to `queryParameters`
(`Value.null` models both an absent argument and an explicit `None`).
`(query or \x7b\x7d)` replaces any falsy value by the empty dict; calling
`.items()` on a remaining truthy non-dict raises (an `AttributeError`,
modelled as `Except.error`).  Entries survive iff their key is in the
tool's allow-list and their value `is not None`. -/
def clean_query (name : String) (query : Value) :
    Except String (List (String × Value)) :=
  let q := if isTruthy query then query else Value.obj []
  match q with
  | .obj fs =>
    .ok (fs.filter (fun kv =>
      (allowed_params_get name).contains kv.1 && !(kv.2.isNull)))
  | _ => .error "AttributeError: object has no attribute items"

/-- An outbound HTTP GET request: the full URL and the `params` mapping
passed to `session.get`. -/
structure OutboundRequest where
  url : String
  params : List (String × Value)

/-- The observable surface of an `aiohttp` response used by the source:
raw body bytes (for `.read()`), response headers, and the outcome of
`.json()` decoding. -/
structure HttpResponse where
  body : List Nat
  headers : List (String × String)
  jsonResult : Except String Value

/-- The external HTTP client: maps a request to a response, or to a raised
transport exception (network error, timeout, ...). -/
def Transport : Type := OutboundRequest → Except String HttpResponse

/-- What one handler invocation did: the outbound requests it issued (in
order) and its result — `ok v` for a normal return of `v` (which may itself
be a soft `{"error": ...}` dict), `error msg` for a raised exception. -/
structure CallOutcome where
  requests : List OutboundRequest
  result : Except String Value

/-- Python `resp.headers.get(k, d)` over the modelled header list. -/
def headersGet (hs : List (String × String)) (k d : String) : String :=
  ((List.find? (fun h => h.1 == k) hs).map (fun h => h.2)).getD d

/-- Lines 309-315 of the source, `list_laws`: GET `{BASE_URL}/laws` with
`params = dict(limit=limit) |> update(clean_query "list_laws" qp)`; the
allow-list of `list_laws` does not contain `"limit"`, so the update appends
the filtered entries after the `limit` entry.  Returns `resp.json()`. -/
def list_laws (t : Transport) (limit : Value) (queryParameters : Value) :
    CallOutcome :=
  match clean_query "list_laws" queryParameters with
  | .error e => ⟨[], .error e⟩
  | .ok cq =>
    let req : OutboundRequest := ⟨BASE_URL ++ "/laws", ("limit", limit) :: cq⟩
    match t req with
    | .error e => ⟨[req], .error e⟩
    | .ok resp => ⟨[req], resp.jsonResult⟩

/-- Lines 317-323 of the source, `search_laws`: GET `{BASE_URL}/keyword`
with `params = dict(keyword=keyword, limit=limit)` updated with the
filtered query.  Note: the body performs no emptiness check on `keyword`. -/
def search_laws (t : Transport) (keyword : Value) (limit : Value)
    (queryParameters : Value) : CallOutcome :=
  match clean_query "search_laws" queryParameters with
  | .error e => ⟨[], .error e⟩
  | .ok cq =>
    let req : OutboundRequest :=
      ⟨BASE_URL ++ "/keyword", ("keyword", keyword) :: ("limit", limit) :: cq⟩
    match t req with
    | .error e => ⟨[req], .error e⟩
    | .ok resp => ⟨[req], resp.jsonResult⟩

/-- The fixed missing-identifier payload returned by `get_law` and
`get_law_file` (lines 328 and 347 of the source). -/
def missing_id_error : Value :=
  Value.obj [("error",
    Value.str "law_id, law_num, または law_revision_id のいずれかを指定してください。")]

/-- Lines 325-332 of the source, `get_law`.  The guard `if not law_key`
is true both when the resolver returned nothing and when it returned a
falsy value (`None`, `""`); only a truthy resolved identifier reaches the
GET of `{BASE_URL}/law_data/{law_key}` (issued with no query parameters). -/
def get_law (t : Transport) (kwargs : Bag) : CallOutcome :=
  match resolve_law_identifier kwargs true with
  | none => ⟨[], .ok missing_id_error⟩
  | some v =>
    if isTruthy v then
      let req : OutboundRequest := ⟨BASE_URL ++ "/law_data/" ++ pyStr v, []⟩
      match t req with
      | .error e => ⟨[req], .error e⟩
      | .ok resp => ⟨[req], resp.jsonResult⟩
    else ⟨[], .ok missing_id_error⟩

/-- Lines 334-342 of the source, `get_law_revisions`: checks `if not law_id`,
then GET `{BASE_URL}/law_revisions/{law_id}` with the filtered query as
params. -/
def get_law_revisions (t : Transport) (law_id : Value)
    (queryParameters : Value) : CallOutcome :=
  if !(isTruthy law_id) then
    ⟨[], .ok (Value.obj [("error", Value.str "law_id を指定してください。")])⟩
  else
    match clean_query "get_law_revisions" queryParameters with
    | .error e => ⟨[], .error e⟩
    | .ok cq =>
      let req : OutboundRequest :=
        ⟨BASE_URL ++ "/law_revisions/" ++ pyStr law_id, cq⟩
      match t req with
      | .error e => ⟨[req], .error e⟩
      | .ok resp => ⟨[req], resp.jsonResult⟩

/-- The standard base64 alphabet, in index order. -/
def b64alphabet : List Char :=
  ['A', 'B', 'C', 'D', 'E', 'F', 'G', 'H', 'I', 'J', 'K', 'L', 'M',
   'N', 'O', 'P', 'Q', 'R', 'S', 'T', 'U', 'V', 'W', 'X', 'Y', 'Z',
   'a', 'b', 'c', 'd', 'e', 'f', 'g', 'h', 'i', 'j', 'k', 'l', 'm',
   'n', 'o', 'p', 'q', 'r', 's', 't', 'u', 'v', 'w', 'x', 'y', 'z',
   '0', '1', '2', '3', '4', '5', '6', '7', '8', '9', '+', '/']

/-- Base64 digit for a 6-bit value. -/
def b64c (n : Nat) : Char := b64alphabet.getD n 'A'

/-- Inverse base64 digit lookup. -/
def b64d (c : Char) : Option Nat :=
  List.findIdx? (fun x => x == c) b64alphabet

/-- Python `base64.b64encode` over a byte list: 3-byte groups become 4
digits, with `=` padding for a 1- or 2-byte tail. -/
def b64encode : List Nat → List Char
  | [] => []
  | [a] => [b64c (a / 4), b64c (a % 4 * 16), '=', '=']
  | [a, b] => [b64c (a / 4), b64c (a % 4 * 16 + b / 16), b64c (b % 16 * 4), '=']
  | a :: b :: c :: rest =>
    b64c (a / 4) :: b64c (a % 4 * 16 + b / 16) :: b64c (b % 16 * 4 + c / 64) ::
      b64c (c % 64) :: b64encode rest

/-- Standard base64 decoding: 4-digit groups back to 3 bytes, with the two
padded tail forms; anything else is rejected. -/
def b64decode : List Char → Option (List Nat)
  | [] => some []
  | w :: x :: y :: z :: rest =>
    match b64d w, b64d x with
    | some dw, some dx =>
      if y == '=' then
        if z == '=' && rest.isEmpty then some [dw * 4 + dx / 16] else none
      else
        match b64d y with
        | some dy =>
          if z == '=' then
            if rest.isEmpty then
              some [dw * 4 + dx / 16, dx % 16 * 16 + dy / 4]
            else none
          else
            match b64d z with
            | some dz =>
              (b64decode rest).map (fun tail =>
                (dw * 4 + dx / 16) :: (dx % 16 * 16 + dy / 4) ::
                  (dy % 4 * 64 + dz) :: tail)
            | none => none
        | none => none
    | _, _ => none
  | _ => none

/-- Base64 decoding of a `String` (as stored in `data_base64`). -/
def b64decodeStr (s : String) : Option (List Nat) := b64decode s.data

/-- Lines 344-357 of the source, `get_law_file`: same identifier resolution
and falsy guard as `get_law`; on success GET
`{BASE_URL}/law_file/json/{law_key}`, read the raw bytes, and wrap them as
`{filename, content_type, data_base64}` with the filename
`{law_key}.json` and the `Content-Type` header (default
`application/json`). -/
def get_law_file (t : Transport) (kwargs : Bag) : CallOutcome :=
  match resolve_law_identifier kwargs true with
  | none => ⟨[], .ok missing_id_error⟩
  | some v =>
    if isTruthy v then
      let req : OutboundRequest := ⟨BASE_URL ++ "/law_file/json/" ++ pyStr v, []⟩
      match t req with
      | .error e => ⟨[req], .error e⟩
      | .ok resp =>
        ⟨[req], .ok (Value.obj
          [("filename", Value.str (pyStr v ++ ".json")),
           ("content_type",
            Value.str (headersGet resp.headers "Content-Type" "application/json")),
           ("data_base64", Value.str (String.mk (b64encode resp.body)))])⟩
    else ⟨[], .ok missing_id_error⟩

mutual

/-- Python `json.dumps(v, ensure_ascii=False)` (the `indent=2` whitespace
and string escaping are elided: no claim depends on the rendered text). -/
def json_dumps : Value → String
  | .null => "null"
  | .str s => "\"" ++ s ++ "\""
  | .int n => toString n
  | .bool b => if b then "true" else "false"
  | .obj fs => "\x7b" ++ dumpFields fs ++ "\x7d"
  | .arr xs => "[" ++ dumpElems xs ++ "]"

/-- Serialization of the members of a JSON object. -/
def dumpFields : List (String × Value) → String
  | [] => ""
  | [(k, v)] => "\"" ++ k ++ "\": " ++ json_dumps v
  | (k, v) :: rest => "\"" ++ k ++ "\": " ++ json_dumps v ++ ", " ++ dumpFields rest

/-- Serialization of the elements of a JSON array. -/
def dumpElems : List Value → String
  | [] => ""
  | [v] => json_dumps v
  | v :: rest => json_dumps v ++ ", " ++ dumpElems rest

end

/-- Python keyword binding: `f(**arguments)` succeeds only if every key of
the bag is a parameter name of `f` (otherwise a `TypeError` is raised). -/
def bindable (args : Bag) (allowed : List String) : Bool :=
  args.all (fun kv => allowed.contains kv.1)

/-- Lines 286-302 of the source, the body of `call_tool`'s `try` block:
route the tool name to its handler, binding `**arguments` to the handler's
keyword parameters (with the source's defaults `limit=100` / `limit=10` /
`queryParameters=None`); an unknown name yields the soft
`{"error": "Unknown tool name: ..."}` payload.  The `result` is `.error`
exactly when the Python code would raise inside the `try`. -/
def call_tool_run (t : Transport) (name : String) (arguments : Bag) :
    CallOutcome :=
  if name = "list_laws" then
    if bindable arguments ["limit", "queryParameters"] then
      list_laws t ((bagFind arguments "limit").getD (Value.int 100))
        ((bagFind arguments "queryParameters").getD Value.null)
    else ⟨[], .error "TypeError: list_laws got an unexpected keyword argument"⟩
  else if name = "search_laws" then
    if bindable arguments ["keyword", "limit", "queryParameters"] then
      match bagFind arguments "keyword" with
      | some kw =>
        search_laws t kw ((bagFind arguments "limit").getD (Value.int 10))
          ((bagFind arguments "queryParameters").getD Value.null)
      | none =>
        ⟨[], .error "TypeError: search_laws missing 1 required positional argument: keyword"⟩
    else ⟨[], .error "TypeError: search_laws got an unexpected keyword argument"⟩
  else if name = "get_law" then
    get_law t arguments
  else if name = "get_law_revisions" then
    if bindable arguments ["law_id", "queryParameters"] then
      match bagFind arguments "law_id" with
      | some lid =>
        get_law_revisions t lid
          ((bagFind arguments "queryParameters").getD Value.null)
      | none =>
        ⟨[], .error "TypeError: get_law_revisions missing 1 required positional argument: law_id"⟩
    else ⟨[], .error "TypeError: get_law_revisions got an unexpected keyword argument"⟩
  else if name = "get_law_file" then
    get_law_file t arguments
  else
    ⟨[], .ok (Value.obj [("error", Value.str ("Unknown tool name: " ++ name))])⟩

/-- Lines 301-302 of the source: the `except Exception` arm folds any raised
exception into the `{"error": str(e)}` payload; a normal handler return is
passed through unchanged. -/
def call_tool_result (t : Transport) (name : String) (arguments : Bag) : Value :=
  match (call_tool_run t name arguments).result with
  | .ok v => v
  | .error e => Value.obj [("error", Value.str e)]

/-- The `TextContent(type="text", text=...)` wrapper of the MCP layer. -/
structure TextContent where
  type : String
  text : String

/-- Line 303 of the source: every invocation returns exactly one
`TextContent` holding the serialized result. -/
def call_tool (t : Transport) (name : String) (arguments : Bag) :
    List TextContent :=
  [⟨"text", json_dumps (call_tool_result t name arguments)⟩]


/-- A transport stub whose every request fails with a network error. -/
def tFail : Transport := fun _ => .error "network unreachable"

/-- A transport stub returning a fixed JSON body for every request. -/
def tStub : Transport := fun _ =>
  .ok ⟨[], [], .ok (Value.obj [("result", Value.str "stub")])⟩

/-- A transport stub serving two bytes `\x7b\x7d` with a JSON content type
(the body is not decodable as JSON, which `get_law_file` never attempts). -/
def tFile : Transport := fun _ =>
  .ok ⟨[123, 125], [("Content-Type", "application/json")], .error "not json"⟩

/-- A transport stub serving an empty JSON array body for every request. -/
def tLaws : Transport := fun _ => .ok ⟨[], [], .ok (Value.arr [])⟩

/-! ## Helper lemmas -/

/-- Inverting a base64 digit recovers the 6-bit value. -/
theorem b64d_b64c : ∀ n < 64, b64d (b64c n) = some n := by decide

/-- No base64 digit is the padding character. -/
theorem b64c_ne_pad : ∀ n < 64, (b64c n == '=') = false := by decide

/-- Decoding one full 4-digit group recovers its 3 bytes. -/
theorem b64decode_chunk (a b c : Nat) (rest : List Char)
    (ha : a < 256) (hb : b < 256) (hc : c < 256) :
    b64decode (b64c (a / 4) :: b64c (a % 4 * 16 + b / 16) ::
      b64c (b % 16 * 4 + c / 64) :: b64c (c % 64) :: rest)
      = (b64decode rest).map (fun tail => a :: b :: c :: tail) := by
  have h1 : a / 4 < 64 := by omega
  have h2 : a % 4 * 16 + b / 16 < 64 := by omega
  have h3 : b % 16 * 4 + c / 64 < 64 := by omega
  have h4 : c % 64 < 64 := by omega
  have e1 : a / 4 * 4 + (a % 4 * 16 + b / 16) / 16 = a := by omega
  have e2 : (a % 4 * 16 + b / 16) % 16 * 16 + (b % 16 * 4 + c / 64) / 4 = b := by omega
  have e3 : (b % 16 * 4 + c / 64) % 4 * 64 + c % 64 = c := by omega
  simp only [b64decode, b64d_b64c _ h1, b64d_b64c _ h2, b64d_b64c _ h3,
    b64d_b64c _ h4, b64c_ne_pad _ h3, b64c_ne_pad _ h4]
  simp [e1, e2, e3]

/-- Decoding the doubly padded tail group recovers its byte. -/
theorem b64decode_tail1 (a : Nat) (ha : a < 256) :
    b64decode (b64encode [a]) = some [a] := by
  have h1 : a / 4 < 64 := by omega
  have h2 : a % 4 * 16 < 64 := by omega
  have e1 : a / 4 * 4 + a % 4 * 16 / 16 = a := by omega
  simp only [b64encode, b64decode, b64d_b64c _ h1, b64d_b64c _ h2]
  simp
  omega

/-- Decoding the singly padded tail group recovers its 2 bytes. -/
theorem b64decode_tail2 (a b : Nat) (ha : a < 256) (hb : b < 256) :
    b64decode (b64encode [a, b]) = some [a, b] := by
  have h1 : a / 4 < 64 := by omega
  have h2 : a % 4 * 16 + b / 16 < 64 := by omega
  have h3 : b % 16 * 4 < 64 := by omega
  have e1 : a / 4 * 4 + (a % 4 * 16 + b / 16) / 16 = a := by omega
  have e2 : (a % 4 * 16 + b / 16) % 16 * 16 + b % 16 * 4 / 4 = b := by omega
  simp only [b64encode, b64decode, b64d_b64c _ h1, b64d_b64c _ h2,
    b64d_b64c _ h3, b64c_ne_pad _ h3]
  simp
  constructor <;> omega

/-- Base64 decoding inverts encoding on any byte list. -/
theorem b64_roundtrip : ∀ bs : List Nat, (∀ x ∈ bs, x < 256) →
    b64decode (b64encode bs) = some bs
  | [], _ => rfl
  | [a], h => b64decode_tail1 a (h a (by simp))
  | [a, b], h => b64decode_tail2 a b (h a (by simp)) (h b (by simp))
  | a :: b :: c :: rest, h => by
    have ha : a < 256 := h a (by simp)
    have hb : b < 256 := h b (by simp)
    have hc : c < 256 := h c (by simp)
    have ih : b64decode (b64encode rest) = some rest :=
      b64_roundtrip rest (fun x hx =>
        h x (List.mem_cons_of_mem _ (List.mem_cons_of_mem _ (List.mem_cons_of_mem _ hx))))
    rw [show b64encode (a :: b :: c :: rest)
        = b64c (a / 4) :: b64c (a % 4 * 16 + b / 16) ::
          b64c (b % 16 * 4 + c / 64) :: b64c (c % 64) :: b64encode rest from rfl,
      b64decode_chunk a b c _ ha hb hc, ih]
    rfl

theorem isNull_eq_false_iff (v : Value) : v.isNull = false ↔ v ≠ Value.null := by
  cases v <;> simp [Value.isNull]

theorem allowed_params_get_unknown (name : String)
    (h : name ∉ ["list_laws", "search_laws", "get_law_revisions"]) :
    allowed_params_get name = [] := by
  simp only [List.mem_cons, not_or] at h
  obtain ⟨h1, h2, h3, -⟩ := h
  simp [allowed_params_get, ALLOWED_PARAMS, List.find?,
    beq_eq_false_iff_ne.mpr (Ne.symm h1),
    beq_eq_false_iff_ne.mpr (Ne.symm h2),
    beq_eq_false_iff_ne.mpr (Ne.symm h3)]

theorem clean_query_obj (name : String) (fs : List (String × Value)) :
    clean_query name (Value.obj fs) =
      .ok (fs.filter (fun kv =>
        (allowed_params_get name).contains kv.1 && !(kv.2.isNull))) := by
  cases fs <;> rfl

/-- Claim C2: the whitelist filter returns the empty mapping on an absent raw
query; on a mapping it keeps exactly the entries whose key is in the tool's
allow-list and whose value is not null; unknown tool names filter everything
out instead of raising; and the `list_laws` example filters to exactly
`[("law_title", "x")]`. -/
theorem clean_query_whitelist (name : String) (fs : List (String × Value)) :
    clean_query name Value.null = .ok [] ∧
    (∃ res, clean_query name (Value.obj fs) = .ok res ∧
      ∀ k v, (k, v) ∈ res ↔
        ((k, v) ∈ fs ∧ k ∈ allowed_params_get name ∧ v ≠ Value.null)) ∧
    (name ∉ ["list_laws", "search_laws", "get_law_revisions"] →
      clean_query name (Value.obj fs) = .ok []) ∧
    clean_query "list_laws"
      (Value.obj [("law_title", Value.str "x"), ("bogus_key", Value.str "y"),
                  ("asof", Value.null)])
      = .ok [("law_title", Value.str "x")] := by
  refine ⟨rfl, ⟨_, clean_query_obj name fs, ?_⟩, ?_, rfl⟩
  · intro k v
    simp [List.mem_filter, isNull_eq_false_iff, and_assoc]
  · intro h
    rw [clean_query_obj, allowed_params_get_unknown name h]
    simp

/-- Claim C9: the whitelist filter is a pure function of its input (the modelled
caller bag is immutable by construction), and its output is a sublist of
the input mapping: every produced entry is an entry of the input. -/
theorem clean_query_frame (name : String) (fs : List (String × Value)) :
    ∃ res, clean_query name (Value.obj fs) = .ok res ∧
      List.Sublist res fs ∧ ∀ k v, (k, v) ∈ res → (k, v) ∈ fs := by
  refine ⟨_, clean_query_obj name fs, List.filter_sublist fs, ?_⟩
  intro k v hv
  exact (List.mem_filter.mp hv).1

/-- Claim C3: identifier resolution is first-match-wins over `law_revision_id`
(only when allowed), then `law_id`, then `law_num`, else nothing; with
`allow_revision_id = false` a bag holding only `law_revision_id` does not
resolve; and the two concrete precedence examples. -/
theorem resolve_precedence (args : Bag) (v : Value) :
    ((bagFind args "law_revision_id" = some v →
        resolve_law_identifier args true = some v) ∧
      (bagFind args "law_revision_id" = none →
        bagFind args "law_id" = some v →
        resolve_law_identifier args true = some v) ∧
      (bagFind args "law_revision_id" = none →
        bagFind args "law_id" = none →
        bagFind args "law_num" = some v →
        resolve_law_identifier args true = some v) ∧
      (bagFind args "law_revision_id" = none →
        bagFind args "law_id" = none →
        bagFind args "law_num" = none →
        resolve_law_identifier args true = none)) ∧
    resolve_law_identifier [("law_revision_id", v)] false = none ∧
    resolve_law_identifier
        [("law_revision_id", Value.str "R1"), ("law_id", Value.str "L1")] true
      = some (Value.str "R1") ∧
    resolve_law_identifier
        [("law_id", Value.str "L1"), ("law_num", Value.str "N1")] true
      = some (Value.str "L1") := by
  refine ⟨⟨?_, ?_, ?_, ?_⟩, rfl, rfl, rfl⟩
  · intro h; simp [resolve_law_identifier, h]
  · intro h1 h2; simp [resolve_law_identifier, h1, h2]
  · intro h1 h2 h3; simp [resolve_law_identifier, h1, h2, h3]
  · intro h1 h2 h3; simp [resolve_law_identifier, h1, h2, h3]

theorem resolve_precedence_witness :
    resolve_law_identifier [("law_id", Value.str "L1")] true
      = some (Value.str "L1") :=
  (resolve_precedence [("law_id", Value.str "L1")] (Value.str "L1")).1.2.1 rfl rfl

/-- Claim C10: the resolver decides on key presence, not value usability — a
present `law_revision_id` bound to null or `""` wins over a usable
`law_id`, and `get_law` / `get_law_file` then report the missing-identifier
payload without issuing any request. -/
theorem resolve_presence_over_usability (t : Transport) (args : Bag)
    (v : Value) (s : String)
    (hrev : bagFind args "law_revision_id" = some v)
    (hfalsy : v = Value.null ∨ v = Value.str "")
    (_hid : bagFind args "law_id" = some (Value.str s))
    (_hs : s ≠ "") :
    resolve_law_identifier args true = some v ∧
    call_tool_run t "get_law" args = ⟨[], .ok missing_id_error⟩ ∧
    call_tool_run t "get_law_file" args = ⟨[], .ok missing_id_error⟩ := by
  have hres : resolve_law_identifier args true = some v := by
    simp [resolve_law_identifier, hrev]
  have hft : isTruthy v = false := by
    rcases hfalsy with h | h <;> subst h <;> rfl
  refine ⟨hres, ?_, ?_⟩
  · simp [call_tool_run, get_law, hres, hft]
  · simp [call_tool_run, get_law_file, hres, hft]

theorem resolve_presence_over_usability_witness :
    resolve_law_identifier
        [("law_revision_id", Value.null), ("law_id", Value.str "L1")] true
      = some Value.null ∧
    call_tool_run tFail "get_law"
        [("law_revision_id", Value.null), ("law_id", Value.str "L1")]
      = ⟨[], .ok missing_id_error⟩ ∧
    call_tool_run tFail "get_law_file"
        [("law_revision_id", Value.null), ("law_id", Value.str "L1")]
      = ⟨[], .ok missing_id_error⟩ :=
  resolve_presence_over_usability tFail _ Value.null "L1" rfl (Or.inl rfl) rfl
    (by decide)

/-- Claim C5: every tool name outside the five-name catalog dispatches to the
soft `Unknown tool name` payload — a normal (non-raising) result with no
outbound request. -/
theorem unknown_tool_soft_error (t : Transport) (name : String) (args : Bag)
    (h : name ∉ ["list_laws", "search_laws", "get_law", "get_law_revisions",
                 "get_law_file"]) :
    call_tool_run t name args =
      ⟨[], .ok (Value.obj [("error", Value.str ("Unknown tool name: " ++ name))])⟩ ∧
    call_tool_result t name args =
      Value.obj [("error", Value.str ("Unknown tool name: " ++ name))] := by
  simp only [List.mem_cons, not_or] at h
  obtain ⟨h1, h2, h3, h4, h5, -⟩ := h
  have hrun : call_tool_run t name args =
      ⟨[], .ok (Value.obj [("error", Value.str ("Unknown tool name: " ++ name))])⟩ := by
    simp [call_tool_run, h1, h2, h3, h4, h5]
  exact ⟨hrun, by simp [call_tool_result, hrun]⟩

theorem unknown_tool_soft_error_witness :
    call_tool_result tFail "bogus" [] =
      Value.obj [("error", Value.str "Unknown tool name: bogus")] :=
  (unknown_tool_soft_error tFail "bogus" [] (by decide)).2

/-- Claim C1: dispatch is total — every invocation returns exactly one serialized
text payload — and any exception raised inside the routed pipeline is folded
into the `{"error": message}` payload rather than propagating. -/
theorem call_tool_never_throws (t : Transport) (name : String) (args : Bag) :
    call_tool t name args =
      [⟨"text", json_dumps (call_tool_result t name args)⟩] ∧
    ∀ e, (call_tool_run t name args).result = .error e →
      call_tool_result t name args = Value.obj [("error", Value.str e)] := by
  refine ⟨rfl, fun e he => ?_⟩
  simp [call_tool_result, he]

theorem call_tool_never_throws_witness :
    call_tool_result tFail "search_laws" [] =
      Value.obj [("error",
        Value.str "TypeError: search_laws missing 1 required positional argument: keyword")] :=
  (call_tool_never_throws tFail "search_laws" []).2 _ rfl

/-- Claim C4 counterexample: with `keyword` present but equal to the empty string,
`search_laws` performs no emptiness check — the outbound request IS issued
(carrying `keyword=""`) and the stub body comes back as a success payload,
refuting both halves of the claim for the empty-string case. -/
theorem search_laws_empty_keyword_sends_request :
    (call_tool_run tStub "search_laws" [("keyword", Value.str "")]).requests =
      [⟨BASE_URL ++ "/keyword",
        [("keyword", Value.str ""), ("limit", Value.int 10)]⟩] ∧
    call_tool_result tStub "search_laws" [("keyword", Value.str "")] =
      Value.obj [("result", Value.str "stub")] :=
  ⟨rfl, rfl⟩

/-- Claim C4 (amended): when `keyword` is absent from the argument bag, the
`search_laws` invocation raises at binding time, which dispatch converts to
an `{"error": ...}` payload, and no outbound request is issued. -/
theorem search_laws_missing_keyword (t : Transport) (args : Bag)
    (h : bagFind args "keyword" = none) :
    (call_tool_run t "search_laws" args).requests = [] ∧
    ∃ m, (call_tool_run t "search_laws" args).result = .error m ∧
      call_tool_result t "search_laws" args =
        Value.obj [("error", Value.str m)] := by
  by_cases hb : bindable args ["keyword", "limit", "queryParameters"]
  · refine ⟨?_, "TypeError: search_laws missing 1 required positional argument: keyword", ?_, ?_⟩ <;>
      simp [call_tool_run, hb, h, call_tool_result]
  · refine ⟨?_, "TypeError: search_laws got an unexpected keyword argument", ?_, ?_⟩ <;>
      simp [call_tool_run, hb, call_tool_result]

theorem search_laws_missing_keyword_witness :
    (call_tool_run tFail "search_laws" []).requests = [] ∧
    ∃ m, (call_tool_run tFail "search_laws" []).result = .error m ∧
      call_tool_result tFail "search_laws" [] =
        Value.obj [("error", Value.str m)] :=
  search_laws_missing_keyword tFail [] rfl

/-- Claim C6 counterexample: on the bag `{law_id: ""}` the resolver succeeds
(returns `some ""`), yet `get_law` issues no request and returns the
missing-identifier payload — refuting "when resolution succeeds, get_law
issues a request". -/
theorem get_law_empty_resolved_no_request :
    resolve_law_identifier [("law_id", Value.str "")] true
      = some (Value.str "") ∧
    (call_tool_run tStub "get_law" [("law_id", Value.str "")]).requests = [] ∧
    call_tool_result tStub "get_law" [("law_id", Value.str "")]
      = missing_id_error :=
  ⟨rfl, rfl, rfl⟩

/-- Claim C6 (amended): when the resolver produces nothing, `get_law` and
`get_law_file` both return the fixed missing-identifier payload naming the
accepted fields and issue no request; when it produces a truthy identifier
(non-null, non-empty), `get_law` issues exactly one GET to
`/law_data/{resolvedIdentifier}` with no query parameters. -/
theorem get_law_missing_identifier (t : Transport) (args : Bag) :
    (resolve_law_identifier args true = none →
      call_tool_run t "get_law" args = ⟨[], .ok missing_id_error⟩ ∧
      call_tool_run t "get_law_file" args = ⟨[], .ok missing_id_error⟩) ∧
    (∀ v, resolve_law_identifier args true = some v → isTruthy v = true →
      (call_tool_run t "get_law" args).requests =
        [⟨BASE_URL ++ "/law_data/" ++ pyStr v, []⟩]) := by
  constructor
  · intro h
    constructor <;> simp [call_tool_run, get_law, get_law_file, h]
  · intro v hv htr
    have : call_tool_run t "get_law" args = get_law t args := by
      simp [call_tool_run]
    rw [this]
    unfold get_law
    rw [hv]
    simp only [htr, if_true]
    cases t ⟨BASE_URL ++ "/law_data/" ++ pyStr v, []⟩ <;> rfl

theorem get_law_missing_identifier_witness :
    (call_tool_run tFail "get_law" []).requests = [] ∧
    (call_tool_run tFail "get_law" [("law_id", Value.str "L1")]).requests =
      [⟨BASE_URL ++ "/law_data/" ++ pyStr (Value.str "L1"), []⟩] :=
  ⟨congrArg CallOutcome.requests ((get_law_missing_identifier tFail []).1 rfl).1,
   (get_law_missing_identifier tFail [("law_id", Value.str "L1")]).2
     (Value.str "L1") rfl rfl⟩

/-- Claim C7: whatever bytes the transport returns for `get_law_file`, the payload
is `filename`/`content_type`/`data_base64`, where the base64 text decodes
back to exactly the transported bytes, `content_type` is the response's
`Content-Type` header, and `filename` is `{resolvedIdentifier}.json`. -/
theorem get_law_file_roundtrip (t : Transport) (args : Bag) (v : Value)
    (bs : List Nat) (ct : String) (resp : HttpResponse)
    (hres : resolve_law_identifier args true = some v)
    (htru : isTruthy v = true)
    (ht : t ⟨BASE_URL ++ "/law_file/json/" ++ pyStr v, []⟩ = .ok resp)
    (hbody : resp.body = bs)
    (hbytes : ∀ x ∈ bs, x < 256)
    (hhead : resp.headers = [("Content-Type", ct)]) :
    call_tool_result t "get_law_file" args = Value.obj
      [("filename", Value.str (pyStr v ++ ".json")),
       ("content_type", Value.str ct),
       ("data_base64", Value.str (String.mk (b64encode bs)))] ∧
    b64decodeStr (String.mk (b64encode bs)) = some bs := by
  have hrun : call_tool_run t "get_law_file" args = get_law_file t args := by
    simp [call_tool_run]
  constructor
  · unfold call_tool_result
    rw [hrun]
    unfold get_law_file
    rw [hres]
    simp only [htru, if_true, ht, hbody, hhead]
    simp [headersGet]
  · show b64decode (String.mk (b64encode bs)).data = some bs
    exact b64_roundtrip bs hbytes

theorem get_law_file_roundtrip_witness :
    call_tool_result tFile "get_law_file" [("law_id", Value.str "L1")] =
      Value.obj
        [("filename", Value.str "L1.json"),
         ("content_type", Value.str "application/json"),
         ("data_base64", Value.str "e30=")] ∧
    b64decodeStr "e30=" = some [123, 125] :=
  get_law_file_roundtrip tFile [("law_id", Value.str "L1")] (Value.str "L1")
    [123, 125] "application/json"
    ⟨[123, 125], [("Content-Type", "application/json")], .error "not json"⟩
    rfl rfl rfl rfl (by decide) rfl

/-- Reduction of a well-formed `list_laws` invocation: the request is
`/laws` with the `limit` entry followed by the filtered query, and the
transported JSON body is returned unchanged. -/
theorem list_laws_run (t : Transport) (limitV : Value)
    (fs cq : List (String × Value)) (resp : HttpResponse) (j : Value)
    (hcq : clean_query "list_laws" (Value.obj fs) = .ok cq)
    (ht : t ⟨BASE_URL ++ "/laws", ("limit", limitV) :: cq⟩ = .ok resp)
    (hj : resp.jsonResult = .ok j) :
    call_tool_run t "list_laws"
        [("limit", limitV), ("queryParameters", Value.obj fs)] =
      ⟨[⟨BASE_URL ++ "/laws", ("limit", limitV) :: cq⟩], .ok j⟩ := by
  have hrun : call_tool_run t "list_laws"
      [("limit", limitV), ("queryParameters", Value.obj fs)] =
      list_laws t limitV (Value.obj fs) := rfl
  rw [hrun]
  unfold list_laws
  rw [hcq]
  simp only [ht, hj]

/-- Claim C8: `list_laws` builds a GET of `/laws` whose query is the `limit`
entry united with the whitelist-filtered query, and hands back the
transport's JSON body unchanged as the success payload; in particular the
`建築基準法` scenario issues query `{limit: 5, law_title: 建築基準法}`. -/
theorem list_laws_query_shape (t : Transport) (limitV : Value)
    (fs cq : List (String × Value)) (resp : HttpResponse) (j : Value)
    (hcq : clean_query "list_laws" (Value.obj fs) = .ok cq)
    (ht : t ⟨BASE_URL ++ "/laws", ("limit", limitV) :: cq⟩ = .ok resp)
    (hj : resp.jsonResult = .ok j) :
    call_tool_run t "list_laws"
        [("limit", limitV), ("queryParameters", Value.obj fs)] =
      ⟨[⟨BASE_URL ++ "/laws", ("limit", limitV) :: cq⟩], .ok j⟩ ∧
    call_tool_result t "list_laws"
        [("limit", limitV), ("queryParameters", Value.obj fs)] = j ∧
    ∀ (t2 : Transport) (resp2 : HttpResponse) (j2 : Value),
      t2 ⟨BASE_URL ++ "/laws",
          [("limit", Value.int 5), ("law_title", Value.str "建築基準法")]⟩
        = .ok resp2 →
      resp2.jsonResult = .ok j2 →
      call_tool_run t2 "list_laws"
          [("limit", Value.int 5),
           ("queryParameters", Value.obj [("law_title", Value.str "建築基準法")])] =
        ⟨[⟨BASE_URL ++ "/laws",
           [("limit", Value.int 5), ("law_title", Value.str "建築基準法")]⟩],
         .ok j2⟩ := by
  have h1 := list_laws_run t limitV fs cq resp j hcq ht hj
  refine ⟨h1, by simp [call_tool_result, h1], ?_⟩
  intro t2 resp2 j2 ht2 hj2
  exact list_laws_run t2 (Value.int 5)
    [("law_title", Value.str "建築基準法")]
    [("law_title", Value.str "建築基準法")] resp2 j2 rfl ht2 hj2

theorem list_laws_query_shape_witness :
    call_tool_run tLaws "list_laws"
        [("limit", Value.int 5),
         ("queryParameters", Value.obj [("law_title", Value.str "建築基準法")])] =
      ⟨[⟨BASE_URL ++ "/laws",
         [("limit", Value.int 5), ("law_title", Value.str "建築基準法")]⟩],
       .ok (Value.arr [])⟩ :=
  (list_laws_query_shape tLaws (Value.int 5)
    [("law_title", Value.str "建築基準法")]
    [("law_title", Value.str "建築基準法")]
    ⟨[], [], .ok (Value.arr [])⟩ (Value.arr []) rfl rfl rfl).1

theorem clean_query_whitelist_witness :
    clean_query "bogus_tool" (Value.obj [("law_title", Value.str "x")]) = .ok [] :=
  (clean_query_whitelist "bogus_tool" [("law_title", Value.str "x")]).2.2.1
    (by decide)

theorem clean_query_frame_witness : ∃ res,
    clean_query "list_laws" (Value.obj [("law_title", Value.str "x")]) = .ok res ∧
      List.Sublist res [("law_title", Value.str "x")] ∧
      ∀ k v, (k, v) ∈ res → (k, v) ∈ [("law_title", Value.str "x")] :=
  clean_query_frame "list_laws" [("law_title", Value.str "x")]
